/-
Verification of the realestate-backend query pipeline.

Shallow embedding of the repository's pure query-interpretation code:
  - helpers/query_parser.py  (intent extraction from free text)
  - helpers/data_filter.py   (frame filtering / ranking frames)
  - helpers/chart_builder.py (chart payload construction)
  - helpers/summary_generator.py (narrative summaries)
  - api/views.py             (strategy handlers)

Strings are modeled as lists of characters; Python's `\d`, `\s`, `\w`
regex classes and str.lower/str.strip are modeled over ASCII (the
dataset and queries are ASCII).  Numeric dataset cells are modeled as
`Option ℚ` (a finite float or a missing value); the chart sanitizer is
modeled over a richer float type that distinguishes NaN and ±infinity,
because pandas' notna treats them differently.
-/
import Mathlib

namespace RealEstate

/-! ## Generic list utilities -/

/-- Insert into a sorted list, keeping the new element before equal ones
(stable insertion). -/
def insertLe {α : Type} (le : α → α → Bool) (x : α) : List α → List α
  | [] => [x]
  | y :: ys => if le x y then x :: y :: ys else y :: insertLe le x ys

/-- Stable insertion sort by a boolean `le` relation. -/
def insertionSortBy {α : Type} (le : α → α → Bool) : List α → List α
  | [] => []
  | x :: xs => insertLe le x (insertionSortBy le xs)

/-- Collapse adjacent equal elements (used after sorting to model
Python's `sorted(set(...))`). -/
def dedupAdj {α : Type} [BEq α] : List α → List α
  | [] => []
  | [x] => [x]
  | x :: y :: rest => if x == y then dedupAdj (y :: rest) else x :: dedupAdj (y :: rest)

/-- Keep the first occurrence of each element, preserving order, carrying
the set of elements already seen (models the seen-set loop in
`_detect_property_types`). -/
def dedupFirstAux {α : Type} [BEq α] : List α → List α → List α
  | _, [] => []
  | seen, x :: xs =>
    if seen.contains x then dedupFirstAux seen xs
    else x :: dedupFirstAux (x :: seen) xs

def dedupFirst {α : Type} [BEq α] (l : List α) : List α := dedupFirstAux [] l

/-- Python string comparison `<`: lexicographic on code points. -/
def strLtChars : List Char → List Char → Bool
  | [], [] => false
  | [], _ :: _ => true
  | _ :: _, [] => false
  | a :: as, b :: bs => decide (a.toNat < b.toNat) || (a == b && strLtChars as bs)

def pyStrLt (a b : String) : Bool := strLtChars a.data b.data

/-! ## Python string primitives (ASCII model) -/

/-- Characters stripped by `str.strip()` and matched by `\s`. -/
def isSpaceChar (c : Char) : Bool :=
  c == ' ' || c == '\t' || c == '\n' || c == '\r' || c == '\x0b' || c == '\x0c'

/-- Python `str.strip()`. -/
def pyStrip (l : List Char) : List Char :=
  ((l.dropWhile isSpaceChar).reverse.dropWhile isSpaceChar).reverse

/-- Python `str.lower()` (ASCII model). -/
def pyLower (l : List Char) : List Char := l.map Char.toLower

/-- Python substring containment `needle in hay`. -/
def subIn (needle : List Char) : List Char → Bool
  | [] => needle.isEmpty
  | c :: rest => needle.isPrefixOf (c :: rest) || subIn needle rest

/-- Regex `\w` (ASCII model of Python's word character class). -/
def isWordChar (c : Char) : Bool := c.isAlphanum || c == '_'

def isWordOpt : Option Char → Bool
  | none => false
  | some c => isWordChar c

/-- Regex word boundary `\b` between an optional previous character and an
optional current character. -/
def wordBoundary (a b : Option Char) : Bool := isWordOpt a != isWordOpt b

/-- Match `\b<needle>\b` exactly at the current position, where `prev` is the
character immediately before the position (none at the start of the text). -/
def wbMatchHere (needle : List Char) (prev : Option Char) (hay : List Char) : Bool :=
  needle.isPrefixOf hay &&
    wordBoundary prev ((needle.head?).orElse (fun _ => hay.head?)) &&
    wordBoundary ((needle.getLast?).orElse (fun _ => prev)) ((hay.drop needle.length).head?)

def wbSearchAux (needle : List Char) : Option Char → List Char → Bool
  | prev, [] => wbMatchHere needle prev []
  | prev, c :: rest => wbMatchHere needle prev (c :: rest) || wbSearchAux needle (some c) rest

/-- Regex search for `\b<needle>\b` anywhere in `hay` (the needle is a
`re.escape`d literal, so all of its characters are matched literally). -/
def wbSearch (needle hay : List Char) : Bool := wbSearchAux needle none hay

def digitVal (c : Char) : Nat := c.toNat - '0'.toNat

def digitsToNat (l : List Char) : Nat := l.foldl (fun acc c => acc * 10 + digitVal c) 0

/-! ## helpers/query_parser.py : regex scanners

`YEAR_RANGE_REGEX = (20\d{2})\s*(?:to|-|through|until|till|and)\s*(20\d{2})`
`YEAR_REGEX = (20\d{2})`
`LAST_N_YEARS_REGEX = (?:last|past)\s+(\d+)\s+years?`
`TOP_N_REGEX = top\s+(\d+)`

The connector alternatives are pairwise prefix-incompatible and none starts
with a whitespace or digit character, so greedy matching of `\s*`, `\s+` and
`\d+` coincides with Python's backtracking search. -/

/-- Match `20\d{2}` at the current position; return the year value and the
rest of the text. -/
def year20At : List Char → Option (Nat × List Char)
  | '2' :: '0' :: a :: b :: rest =>
    if a.isDigit && b.isDigit then some (2000 + 10 * digitVal a + digitVal b, rest) else none
  | _ => none

/-- All non-overlapping matches of `YEAR_REGEX` left to right
(`re.findall` semantics). -/
def yearFindall : List Char → List Nat
  | '2' :: '0' :: a :: b :: rest =>
    if a.isDigit && b.isDigit then
      (2000 + 10 * digitVal a + digitVal b) :: yearFindall rest
    else
      yearFindall ('0' :: a :: b :: rest)
  | _ :: rest => yearFindall rest
  | [] => []

def RANGE_CONNECTORS : List (List Char) :=
  ["to".data, "-".data, "through".data, "until".data, "till".data, "and".data]

/-- Match `YEAR_RANGE_REGEX` at the current position; return the two captured
years. -/
def rangeAt (l : List Char) : Option (Nat × Nat) :=
  match year20At l with
  | none => none
  | some (y1, r1) =>
    let r2 := r1.dropWhile isSpaceChar
    match RANGE_CONNECTORS.find? (fun c => c.isPrefixOf r2) with
    | none => none
    | some c =>
      match year20At ((r2.drop c.length).dropWhile isSpaceChar) with
      | none => none
      | some (y2, _) => some (y1, y2)

/-- `YEAR_RANGE_REGEX.search` (leftmost match). -/
def rangeSearch : List Char → Option (Nat × Nat)
  | [] => none
  | c :: rest =>
    match rangeAt (c :: rest) with
    | some p => some p
    | none => rangeSearch rest

/-- Match `\s+(\d+)` at the current position; return the captured integer and
the rest of the text. -/
def spacesThenDigits (l : List Char) : Option (Nat × List Char) :=
  match l with
  | c :: rest =>
    if isSpaceChar c then
      let afterSpaces := rest.dropWhile isSpaceChar
      let digits := afterSpaces.takeWhile Char.isDigit
      if digits.isEmpty then none
      else some (digitsToNat digits, afterSpaces.drop digits.length)
    else none
  | [] => none

/-- Match `TOP_N_REGEX` at the current position. -/
def topNAt (l : List Char) : Option Nat :=
  if ("top".data).isPrefixOf l then (spacesThenDigits (l.drop 3)).map (·.1) else none

/-- `TOP_N_REGEX.search` (leftmost match). -/
def topNSearch : List Char → Option Nat
  | [] => none
  | c :: rest =>
    match topNAt (c :: rest) with
    | some n => some n
    | none => topNSearch rest

/-- Match `LAST_N_YEARS_REGEX` at the current position. -/
def lastNAt (l : List Char) : Option Nat :=
  if ("last".data).isPrefixOf l || ("past".data).isPrefixOf l then
    match spacesThenDigits (l.drop 4) with
    | some (n, rest) =>
      match rest with
      | c :: rest2 =>
        if isSpaceChar c && ("year".data).isPrefixOf (rest2.dropWhile isSpaceChar) then
          some n
        else none
      | [] => none
    | none => none
  else none

/-- `LAST_N_YEARS_REGEX.search` (leftmost match). -/
def lastNSearch : List Char → Option Nat
  | [] => none
  | c :: rest =>
    match lastNAt (c :: rest) with
    | some n => some n
    | none => lastNSearch rest

/-! ## helpers/query_parser.py : keyword tables -/

def METRIC_KEYWORDS : List (String × List String) :=
  [("price", ["price", "prices", "rate", "rates", "valuation", "cost", "pricing"]),
   ("demand", ["demand", "sold", "sales", "absorption", "bookings", "units sold"]),
   ("supply", ["supply", "supplied", "inventory", "stock", "pipeline", "units available",
     "carpet area"]),
   ("sales", ["total_sales", "total sales", "revenue", "turnover"])]

def PROPERTY_KEYWORDS : List (String × List String) :=
  [("flat", ["flat", "flats", "apartment", "apartments", "residential"]),
   ("office", ["office", "offices"]),
   ("shop", ["shop", "shops", "retail", "stores"])]

def SPECIAL_PROPERTY_KEYWORDS : List (String × List String) :=
  [("carpet_area", ["carpet area", "carpet sq", "sqft supplied"])]

def COMPARISON_KEYWORDS : List String :=
  ["compare", " vs ", " vs. ", "vs", "v/s", "versus", "between", "against", "compared to",
   "better than", "performed better"]

def GENERAL_INSIGHT_KEYWORDS : List String :=
  ["overview", "insight", "analysis", "summary", "summarize", "explain", "trend", "outlook"]

def COORDINATE_KEYWORDS : List String :=
  ["coordinate", "coordinates", "lat", "lng", "longitude", "latitude", "location pin"]

def NEAR_KEYWORDS : List String := ["near", "nearby", "close to", "around"]

def RANKING_DESC_KEYWORDS : List String := ["highest", "top", "most", "fastest", "best"]

def RANKING_ASC_KEYWORDS : List String :=
  ["lowest", "least", "slowest", "bottom", "worst", "minimum"]

def STAT_KEYWORDS : List (String × List String) :=
  [("average", ["average", "avg", "mean"]),
   ("max", ["highest", "max", "peak"]),
   ("min", ["lowest", "min", "minimum"]),
   ("growth_rate", ["growth rate", "growth", "increase", "rise", "drop", "decline"])]

def ALL_LOCATIONS_KEYWORDS : List String :=
  ["all locations", "across all", "overall", "entire city", "whole city", "across pune",
   "citywide", "across the city"]

/-! ## helpers/query_parser.py : detectors -/

/-- `_detect_boolean(lowered_query, keywords, word_boundary=False)`. -/
def detect_boolean_sub (lq : List Char) (keywords : List String) : Bool :=
  keywords.any (fun k => subIn k.data lq)

/-- `_detect_boolean(lowered_query, keywords, word_boundary=True)`. -/
def detect_boolean_wb (lq : List Char) (keywords : List String) : Bool :=
  keywords.any (fun k => wbSearch k.data lq)

/-- `_match_locations`: iterate the canonical location list (not the text),
collect whole-word case-insensitive matches in list order, breaking as soon
as two have been found. -/
def match_locations (query : List Char) (locations : List String) : List String :=
  (locations.filter (fun loc => wbSearch (pyLower loc.data) (pyLower query))).take 2

/-- `_detect_metric`: first metric category (in fixed dict order) with any
substring keyword match; fallback `"general"`. -/
def detect_metric (lq : List Char) : String :=
  match METRIC_KEYWORDS.find? (fun mk => mk.2.any (fun kw => subIn kw.data lq)) with
  | some mk => mk.1
  | none => "general"

/-- `_detect_property_types`: whole-word matches over property categories, then
substring matches over special categories, duplicates removed keeping the
first occurrence. -/
def detect_property_types (lq : List Char) : List String :=
  dedupFirst
    ((PROPERTY_KEYWORDS.filter (fun pk => pk.2.any (fun kw => wbSearch kw.data lq))).map (·.1)
     ++ (SPECIAL_PROPERTY_KEYWORDS.filter
          (fun pk => pk.2.any (fun kw => subIn kw.data lq))).map (·.1))

def sortedDedupNat (l : List Nat) : List Nat :=
  dedupAdj (insertionSortBy (fun a b => decide (a ≤ b)) l)

/-- `_extract_years`. -/
def extract_years (lq : List Char) : Option Nat × Option (Nat × Nat) :=
  match rangeSearch lq with
  | some (a, b) => (none, some (Nat.min a b, Nat.max a b))
  | none =>
    match sortedDedupNat (yearFindall lq) with
    | [] => (none, none)
    | [y] => (some y, none)
    | y :: z :: rest => (none, some (y, (z :: rest).getLastD y))

/-- `_extract_last_n_years`. -/
def extract_last_n_years (lq : List Char) : Option Nat :=
  match lastNSearch lq with
  | some v => if v > 0 then some v else none
  | none => none

/-- `_detect_ranking`: superlative keyword scan with a `top N` override that
forces ranking, a descending order and an explicit limit. -/
def detect_ranking (lq : List Char) : Bool × String × Option Nat :=
  let ranking := detect_boolean_wb lq (RANKING_DESC_KEYWORDS ++ RANKING_ASC_KEYWORDS)
  let order := if detect_boolean_wb lq RANKING_ASC_KEYWORDS then "asc" else "desc"
  match topNSearch lq with
  | some n => (true, "desc", some n)
  | none => (ranking, order, none)

/-- `_detect_stats`. -/
def detect_stats (lq : List Char) : List String :=
  (STAT_KEYWORDS.filter (fun sk => sk.2.any (fun kw => subIn kw.data lq))).map (·.1)

/-! ## helpers/query_parser.py : ParsedQuery and parse_query -/

structure ParsedQuery where
  raw_query : String
  locations : List String
  metric : String
  property_types : List String := []
  comparison : Bool := false
  ranking : Bool := false
  ranking_order : String := "desc"
  ranking_limit : Option Nat := none
  coordinate : Bool := false
  near : Bool := false
  year : Option Int := none
  year_range : Option (Int × Int) := none
  last_n_years : Option Nat := none
  stats : List String := []
  extrema : Bool := false
  general_insight : Bool := false
  all_locations : Bool := false
deriving DecidableEq, Repr

/-- The trimmed-and-lowered form of the query text used by every detector. -/
def loweredQuery (query : String) : List Char := pyLower (pyStrip query.data)

/-- `parse_query(query, locations)`.  The `locations` argument models the
canonical location list (the Python default comes from the excluded dataset
reader). -/
def parse_query (query : String) (locations : List String) : ParsedQuery :=
  let trimmed := pyStrip query.data
  let lowered := pyLower trimmed
  let parsed_locations := match_locations trimmed locations
  let metric := detect_metric lowered
  let property_types := detect_property_types lowered
  let yr := extract_years lowered
  let last_n_years := extract_last_n_years lowered
  let rk := detect_ranking lowered
  let stats := detect_stats lowered
  let coordinate := detect_boolean_wb lowered COORDINATE_KEYWORDS
  let near := detect_boolean_wb lowered NEAR_KEYWORDS
  let all_locations := detect_boolean_sub lowered ALL_LOCATIONS_KEYWORDS
  let explicit_comparison := COMPARISON_KEYWORDS.any (fun k => subIn k.data lowered)
  let comparison := explicit_comparison || decide (2 ≤ parsed_locations.length)
  let ranking := rk.1 && parsed_locations.isEmpty
  let extrema := rk.1 && !parsed_locations.isEmpty
  let general_insight :=
    (metric == "general") || GENERAL_INSIGHT_KEYWORDS.any (fun k => subIn k.data lowered)
  { raw_query := String.mk trimmed
    locations := parsed_locations
    metric := metric
    property_types := property_types
    comparison := comparison
    ranking := ranking
    ranking_order := rk.2.1
    ranking_limit := rk.2.2
    coordinate := coordinate
    near := near
    year := yr.1.map Int.ofNat
    year_range := yr.2.map (fun p => (Int.ofNat p.1, Int.ofNat p.2))
    last_n_years := last_n_years
    stats := stats
    extrema := extrema
    general_insight := general_insight
    all_locations := all_locations }

/-! ## numpy argsort (kind="quicksort")

`DataFrame.sort_values` with a single `by` column and the default
`kind="quicksort"` computes the row order with pandas `nargsort`, which calls
`np.ndarray.argsort(kind="quicksort")` — numpy's introspective quicksort
(npysort/quicksort: `aquicksort_double` / `aheapsort_double`): median-of-3
quicksort over an index array, switching to insertion sort for partitions of
at most 16 elements and to heapsort past the depth limit.  numpy documents
this sort as NOT stable: equal keys do not keep their original order.  The
translation below follows the C source pointer-for-pointer (pointers become
indices into the index list); the bounded loops carry explicit fuel that
dominates the C loop counts.  Comparisons are `<` on exact rationals, the
NaN-free case of numpy's `DOUBLE_LT`. -/

/-- The value addressed through the index array: `v[*p]` in the C source. -/
def npVal (vs : List ℚ) (ts : List Nat) (i : Nat) : ℚ := vs.getD (ts.getD i 0) 0

/-- `INTP_SWAP(*i, *j)`. -/
def npSwap (ts : List Nat) (i j : Nat) : List Nat :=
  (ts.set i (ts.getD j 0)).set j (ts.getD i 0)

/-- The C loop `do ++pi; while (DOUBLE_LT(v[*pi], vp));`. -/
def npScanUp (vs : List ℚ) (ts : List Nat) (vp : ℚ) : Nat → Nat → Nat
  | 0, i => i + 1
  | fuel + 1, i =>
    if npVal vs ts (i + 1) < vp then npScanUp vs ts vp fuel (i + 1) else i + 1

/-- The C loop `do --pj; while (DOUBLE_LT(vp, v[*pj]));`. -/
def npScanDown (vs : List ℚ) (ts : List Nat) (vp : ℚ) : Nat → Nat → Nat
  | 0, j => j - 1
  | fuel + 1, j =>
    if vp < npVal vs ts (j - 1) then npScanDown vs ts vp fuel (j - 1) else j - 1

/-- The C partition loop: advance both scans, stop when they cross, else swap
and continue.  Returns the updated index list and the crossing point `pi`. -/
def npPartitionLoop (vs : List ℚ) (vp : ℚ) : Nat → List Nat → Nat → Nat → List Nat × Nat
  | 0, ts, pi, _ => (ts, pi)
  | fuel + 1, ts, pi, pj =>
    let pi' := npScanUp vs ts vp (vs.length + 2) pi
    let pj' := npScanDown vs ts vp (vs.length + 2) pj
    if pj' ≤ pi' then (ts, pi')
    else npPartitionLoop vs vp fuel (npSwap ts pi' pj') pi' pj'

/-- The inner shifting loop of the C insertion sort:
`while (pj > pl && DOUBLE_LT(vp, v[*pk])) { *pj-- = *pk--; } *pj = vi;`. -/
def npInsShift (vs : List ℚ) (vp : ℚ) (vi pl : Nat) : Nat → List Nat → Nat → List Nat
  | 0, ts, pj => ts.set pj vi
  | fuel + 1, ts, pj =>
    if pl < pj && decide (vp < npVal vs ts (pj - 1)) then
      npInsShift vs vp vi pl fuel (ts.set pj (ts.getD (pj - 1) 0)) (pj - 1)
    else ts.set pj vi

/-- The insertion sort that finishes each small partition `[pl..pr]`. -/
def npInsSeg (vs : List ℚ) (ts : List Nat) (pl pr : Nat) : List Nat :=
  (List.range' (pl + 1) (pr - pl)).foldl
    (fun ts pi =>
      let vi := ts.getD pi 0
      let vp := vs.getD vi 0
      npInsShift vs vp vi pl (vs.length + 2) ts pi)
    ts

/-- One-based access into the heapsort segment: `a[k]` with `a = tosort + pl - 1`. -/
def hIdx (pl k : Nat) : Nat := pl + k - 1

/-- The sift-down loop shared by both phases of `aheapsort_double`. -/
def npSift (vs : List ℚ) (pl n tmp : Nat) : Nat → List Nat → Nat → Nat → List Nat
  | 0, ts, i, _ => ts.set (hIdx pl i) tmp
  | fuel + 1, ts, i, j =>
    if j ≤ n then
      let j := if j < n && decide (npVal vs ts (hIdx pl j) < npVal vs ts (hIdx pl (j + 1)))
        then j + 1 else j
      if vs.getD tmp 0 < npVal vs ts (hIdx pl j) then
        npSift vs pl n tmp fuel (ts.set (hIdx pl i) (ts.getD (hIdx pl j) 0)) j (j + j)
      else ts.set (hIdx pl i) tmp
    else ts.set (hIdx pl i) tmp

/-- The heapify phase: `for (l = n >> 1; l > 0; --l)`. -/
def npHeapBuild (vs : List ℚ) (pl n : Nat) : Nat → List Nat → List Nat
  | 0, ts => ts
  | l + 1, ts =>
    let tmp := ts.getD (hIdx pl (l + 1)) 0
    npHeapBuild vs pl n l (npSift vs pl n tmp (n + 2) ts (l + 1) ((l + 1) + (l + 1)))

/-- The extraction phase: `for (; n > 1;)`. -/
def npHeapExtract (vs : List ℚ) (pl : Nat) : Nat → List Nat → List Nat
  | 0, ts => ts
  | 1, ts => ts
  | n + 2, ts =>
    let tmp := ts.getD (hIdx pl (n + 2)) 0
    let ts := ts.set (hIdx pl (n + 2)) (ts.getD (hIdx pl 1) 0)
    npHeapExtract vs pl (n + 1) (npSift vs pl (n + 1) tmp (n + 4) ts 1 2)

/-- `aheapsort_double` on the segment `[pl..pr]` of the index list. -/
def npHeapSeg (vs : List ℚ) (ts : List Nat) (pl pr : Nat) : List Nat :=
  let n := pr - pl + 1
  npHeapExtract vs pl n (npHeapBuild vs pl n (n >>> 1) ts)

/-- `SMALL_QUICKSORT` from numpy's npysort. -/
def SMALL_QUICKSORT : Nat := 15

/-- One quicksort partition of the segment `[pl..pr]`: the median-of-3 pivot
selection, the crossing-scan partition, and the final pivot swap.  Returns
the permuted index list and the pivot position `pi`. -/
def npPartitionStep (vs : List ℚ) (ts : List Nat) (pl pr : Nat) : List Nat × Nat :=
  let pm := pl + ((pr - pl) >>> 1)
  let ts := if npVal vs ts pm < npVal vs ts pl then npSwap ts pm pl else ts
  let ts := if npVal vs ts pr < npVal vs ts pm then npSwap ts pr pm else ts
  let ts := if npVal vs ts pm < npVal vs ts pl then npSwap ts pm pl else ts
  let vp := npVal vs ts pm
  let ts := npSwap ts pm (pr - 1)
  let p := npPartitionLoop vs vp (vs.length + 2) ts pl (pr - 1)
  (npSwap p.1 p.2 (pr - 1), p.2)

/-- The main loop of `aquicksort_double`: `pl`/`pr` delimit the current
segment, `stack` holds postponed segments, `depth` is the shared
introspection budget (`depth_limit`, post-decremented at each partition). -/
def npIntrosort (vs : List ℚ) : Nat → List Nat → List (Nat × Nat) → Nat → Nat → Int → List Nat
  | 0, ts, _, _, _, _ => ts
  | fuel + 1, ts, stack, pl, pr, depth =>
    if pl + SMALL_QUICKSORT < pr then
      if depth < 0 then
        let ts := npHeapSeg vs ts pl pr
        match stack with
        | [] => ts
        | (pl', pr') :: rest => npIntrosort vs fuel ts rest pl' pr' (depth - 1)
      else
        let p := npPartitionStep vs ts pl pr
        let ts := p.1
        let pi := p.2
        if pi - pl < pr - pi then
          npIntrosort vs fuel ts ((pi + 1, pr) :: stack) pl (pi - 1) (depth - 1)
        else
          npIntrosort vs fuel ts ((pl, pi - 1) :: stack) (pi + 1) pr (depth - 1)
    else
      let ts := npInsSeg vs ts pl pr
      match stack with
      | [] => ts
      | (pl', pr') :: rest => npIntrosort vs fuel ts rest pl' pr' depth

/-- `npy_get_msb`: index of the highest set bit. -/
def npyGetMsb (n : Nat) : Nat := Nat.log2 n

/-- `np.ndarray.argsort(kind="quicksort")` on a float column with no NaNs. -/
def npArgsortQuicksort (vs : List ℚ) : List Nat :=
  npIntrosort vs (4 * vs.length + 64) (List.range vs.length) [] 0 (vs.length - 1)
    (2 * (npyGetMsb vs.length : Int))

/-- pandas `nargsort` on a column with no missing values: ascending argsorts
directly; descending argsorts the reversed values, maps positions back
through the reversed index, and reverses the result. -/
def nargsortNoNa (vs : List ℚ) (ascending : Bool) : List Nat :=
  if ascending then npArgsortQuicksort vs
  else ((npArgsortQuicksort vs.reverse).map (fun j => vs.length - 1 - j)).reverse

/-! ## Data model

A dataset record (one pandas row): display-cased location name, integer
year, coordinates, and the numeric metric cells.  A missing numeric cell
(pandas NaN) is `none`; dataset cells are finite-or-missing.  A frame pairs
the rows with the list of numeric column names; well-formed frames (every
row has exactly the frame's columns) model pandas dataframes. -/

structure Row where
  finalLocation : String
  year : Int
  locLat : ℚ
  locLng : ℚ
  cells : List (String × Option ℚ)
deriving DecidableEq, Repr

def defaultRow : Row := { finalLocation := "", year := 0, locLat := 0, locLng := 0, cells := [] }

/-- `row[column]` for a numeric column: missing column or NaN cell is `none`. -/
def Row.cell (r : Row) (c : String) : Option ℚ := (r.cells.lookup c).join

structure Frame where
  cols : List String
  rows : List Row
deriving DecidableEq, Repr

/-- Pandas coherence: every row carries exactly the frame's numeric columns. -/
def Frame.WF (f : Frame) : Prop := ∀ r ∈ f.rows, r.cells.map Prod.fst = f.cols

/-! ## helpers/data_filter.py -/

/-- `_normalize` applied to one value, and `location.strip().lower()`. -/
def pyStripLowerStr (s : String) : String := String.mk (pyLower (pyStrip s.data))

/-- `_location_mask`: a falsy location (None or the empty string) selects
every row. -/
def location_mask (location : Option String) (r : Row) : Bool :=
  match location with
  | none => true
  | some loc =>
    if loc.data.isEmpty then true
    else pyStripLowerStr r.finalLocation == pyStripLowerStr loc

/-- `sort_values("year")`.  pandas uses the unstable quicksort of the
previous section for this too; every theorem below whose conclusion depends
on row order after a sort by year assumes pairwise-distinct years, under
which all comparison sorts produce the same order, so the stable insertion
sort is a faithful model there. -/
def sortRowsByYear (rows : List Row) : List Row :=
  insertionSortBy (fun a b => decide (a.year ≤ b.year)) rows

def sortedDedupInt (l : List Int) : List Int :=
  dedupAdj (insertionSortBy (fun a b => decide (a ≤ b)) l)

/-- `filter_dataset`: narrow by location, year range, year; sort by year;
then keep the most recent N available years. -/
def filter_dataset (df : Frame) (location : Option String) (year : Option Int)
    (year_range : Option (Int × Int)) (last_n_years : Option Nat) : Frame :=
  let filtered := df.rows.filter (location_mask location)
  let filtered := match year_range with
    | some (a, b) => filtered.filter (fun r => decide (min a b ≤ r.year) && decide (r.year ≤ max a b))
    | none => filtered
  let filtered := match year with
    | some y => filtered.filter (fun r => r.year == y)
    | none => filtered
  let filtered := sortRowsByYear filtered
  let filtered := match last_n_years with
    | some n =>
      if n ≠ 0 && !filtered.isEmpty then
        let years := sortedDedupInt (filtered.map (·.year))
        let available := years.drop (years.length - n)
        filtered.filter (fun r => available.contains r.year)
      else filtered
    | none => filtered
  { cols := df.cols, rows := filtered }

/-- `filter_two_locations`. -/
def filter_two_locations (df : Frame) (first_location second_location : String)
    (year : Option Int) (year_range : Option (Int × Int)) (last_n_years : Option Nat) :
    Frame × Frame :=
  (filter_dataset df (some first_location) year year_range last_n_years,
   filter_dataset df (some second_location) year year_range last_n_years)

/-- Multi-key lexicographic order on (final location, year); pandas sorts by
several keys with `np.lexsort`, which IS stable, so the stable insertion sort
models it faithfully. -/
def lexLocYearLe (a b : Row) : Bool :=
  pyStrLt a.finalLocation b.finalLocation ||
    (a.finalLocation == b.finalLocation && decide (a.year ≤ b.year))

/-- `latest_records_per_location`: sort by (location, year), then pick, per
location group in sorted-key order, the first row carrying the group's
maximal year (`groupby(...)["year"].idxmax()`). -/
def latest_records_per_location (df : Frame) : Frame :=
  if df.rows.isEmpty then df
  else
    let sortedRows := insertionSortBy lexLocYearLe df.rows
    let groups := dedupFirst (sortedRows.map (·.finalLocation))
    { cols := df.cols
      rows := groups.filterMap (fun L =>
        let g := sortedRows.filter (fun r => r.finalLocation == L)
        match (g.map (·.year)).max? with
        | some m => g.find? (fun r => r.year == m)
        | none => none) }

/-- `ranking_frame`: one entry per location — the requested year's rows, or
each location's most recent record. -/
def ranking_frame (df : Frame) (year : Option Int) : Frame :=
  match year with
  | some y => { cols := df.cols, rows := df.rows.filter (fun r => r.year == y) }
  | none => latest_records_per_location df

/-! ## helpers/chart_builder.py

Chart inputs are Python floats, which unlike dataset cells can be NaN or
±infinity; `pd.notna` is False on None and NaN but True on ±infinity. -/

inductive PyFloat where
  | finite (q : ℚ)
  | inf
  | ninf
  | nan
deriving DecidableEq, Repr

def pdNotna : Option PyFloat → Bool
  | none => false
  | some .nan => false
  | some _ => true

/-- `_sanitize_values`: None stays None, values passing `pd.notna` become
plain floats, everything else becomes None. -/
def sanitize_values (values : List (Option PyFloat)) : List (Option PyFloat) :=
  values.map (fun value =>
    match value with
    | none => none
    | some v => if pdNotna (some v) then some v else none)

structure BarChart where
  labels : List String
  values : List (Option PyFloat)
deriving DecidableEq, Repr

/-- `build_bar_chart`. -/
def build_bar_chart (labels : List String) (values : List (Option PyFloat)) : BarChart :=
  { labels := labels, values := sanitize_values values }

structure MultiLineChart where
  labels : List String
  series : List (String × List (Option PyFloat))
deriving DecidableEq, Repr

/-- Python `sorted(set(...))` over strings. -/
def sortedDedupStr (l : List String) : List String :=
  dedupAdj (insertionSortBy (fun a b => !pyStrLt b a) l)

/-- `build_multi_line_chart` with the default `"year"` label column: union of
string labels, sorted ascending; per series one value per unified label,
`None` where the series lacks the label or holds NaN.  The Python `frames`
dict is modeled as an association list. -/
def build_multi_line_chart (frames : List (String × Frame)) (value_column : String) :
    MultiLineChart :=
  let combined_labels :=
    sortedDedupStr ((frames.map (fun p => p.2.rows.map (fun r => toString r.year))).flatten)
  { labels := combined_labels
    series := frames.map (fun p =>
      (p.1, combined_labels.map (fun label =>
        match p.2.rows.find? (fun r => toString r.year == label) with
        | some r => (r.cell value_column).map PyFloat.finite
        | none => none))) }

/-! ## helpers/summary_generator.py -/

def METRIC_MESSAGES : List (String × String) :=
  [("price", "pricing trends"), ("demand", "buyer demand"), ("sales", "sales values"),
   ("supply", "new supply and inventory levels"), ("general", "overall performance metrics")]

def PROPERTY_LABELS_SUMMARY : List (String × String) :=
  [("flat", "flats"), ("office", "offices"), ("shop", "shops"),
   ("carpet_area", "carpet area supplied")]

/-- `_metric_phrase`. -/
def metric_phrase (p : ParsedQuery) : String :=
  let base := (METRIC_MESSAGES.lookup p.metric).getD "overall performance metrics"
  if p.property_types.isEmpty then base
  else
    base ++ " for " ++
      String.intercalate " & "
        (p.property_types.map (fun prop => (PROPERTY_LABELS_SUMMARY.lookup prop).getD prop))

/-- Python truthiness of an optional integer: None and 0 are falsy. -/
def truthyInt : Option Int → Bool
  | some y => y != 0
  | none => false

/-- Python truthiness of an optional count: None and 0 are falsy. -/
def truthyNat : Option Nat → Bool
  | some n => n != 0
  | none => false

/-- `_time_phrase` (Python truthiness: a zero year or a zero window count is
treated as absent). -/
def time_phrase (p : ParsedQuery) : String :=
  if truthyInt p.year then
    "in " ++ toString (p.year.getD 0)
  else if p.year_range.isSome then
    "from " ++ toString (p.year_range.getD (0, 0)).1 ++ " to " ++
      toString (p.year_range.getD (0, 0)).2
  else if truthyNat p.last_n_years then
    "across the last " ++ toString (p.last_n_years.getD 0) ++ " years"
  else "across the available years"

/-- Round the fraction `num / den` (positive denominator) to the nearest
integer, ties to even (Python float rounding in `round` and string
formatting, idealized over exact rationals): `f` is the floor, and `rem2`
is twice the remaining numerator, compared against the denominator to place
the fractional part relative to 1/2. -/
def roundHalfEvenFrac (num den : Int) : Int :=
  let f := Int.fdiv num den
  let rem2 := 2 * (num - f * den)
  if rem2 < den then f
  else if den < rem2 then f + 1
  else if f % 2 = 0 then f else f + 1

def roundHalfEvenInt (q : ℚ) : Int := roundHalfEvenFrac q.num q.den

/-- Python `round(x, 2)`: `100 x` rounded half-to-even, over 100 (the
multiplication by 100 is carried out on the numerator). -/
def round2 (q : ℚ) : ℚ := mkRat (roundHalfEvenFrac (q.num * 100) (q.den : Int)) 100

/-- Python `f"{x:.2f}"` (negative-zero rendering is not modeled). -/
def format2f (q : ℚ) : String :=
  let n := roundHalfEvenFrac (q.num * 100) (q.den : Int)
  let a := n.natAbs
  (if n < 0 then "-" else "") ++ toString (a / 100) ++ "." ++
    (if a % 100 < 10 then "0" else "") ++ toString (a % 100)

/-- Python `f"{x:.1f}"`. -/
def format1f (q : ℚ) : String :=
  let n := roundHalfEvenFrac (q.num * 10) (q.den : Int)
  let a := n.natAbs
  (if n < 0 then "-" else "") ++ toString (a / 10) ++ "." ++ toString (a % 10)

/-- `_format_value` on a numeric-or-missing value (dataset numbers are
finite, so the non-finite branch coincides with the missing branch).  The
magnitude comparisons `abs(value) >= threshold` and the scaling divisions
`value / threshold` are carried out on the numerator and denominator of the
exact rational, which is the same comparison and the same quotient. -/
def format_value (v : Option ℚ) : String :=
  match v with
  | none => "N/A"
  | some value =>
    let a := value.num.natAbs
    if 1000000000 * value.den ≤ a then format2f (mkRat value.num (value.den * 1000000000)) ++ "B"
    else if 1000000 * value.den ≤ a then format2f (mkRat value.num (value.den * 1000000)) ++ "M"
    else if 1000 * value.den ≤ a then format1f (mkRat value.num (value.den * 1000)) ++ "K"
    else if value.den = 1 then toString value.num
    else format2f value

structure RankRow where
  rank : Nat
  finalLocation : String
  value : Option ℚ
  year : Int
deriving DecidableEq, Repr

structure NearRec where
  finalLocation : String
  locLat : ℚ
  locLng : ℚ
  distance_km : ℚ
deriving DecidableEq, Repr

structure CompCtx where
  winner : String
  loser : String
  difference : ℚ
deriving DecidableEq, Repr

structure StatsCtx where
  average : Option ℚ := none
  max : Option (ℚ × Option Int) := none
  min : Option (ℚ × Option Int) := none
  growth_rate : Option (ℚ × String) := none
deriving DecidableEq, Repr

/-- The `context` dict handed to `generate_summary`; absent keys are the
defaults. -/
structure Context where
  coordinate : Option (Option ℚ × Option ℚ) := none
  nearby : List NearRec := []
  ranking : List RankRow := []
  comparison : Option CompCtx := none
  stats : StatsCtx := {}
deriving DecidableEq, Repr

def yearSuffix (year : Option Int) : String :=
  match year with
  | some y => if y ≠ 0 then " in " ++ toString y else ""
  | none => ""

/-- `_stats_sentence`. -/
def stats_sentence (stats : StatsCtx) : String :=
  let parts : List String :=
    (match stats.average with
     | some v => ["average " ++ format_value (some v)]
     | none => []) ++
    (match stats.max with
     | some (v, y) => ["peak of " ++ format_value (some v) ++ yearSuffix y]
     | none => []) ++
    (match stats.min with
     | some (v, y) => ["lowest value of " ++ format_value (some v) ++ yearSuffix y]
     | none => []) ++
    (match stats.growth_rate with
     | some (rate, direction) =>
       [direction ++ " of " ++ format_value (some rate) ++ "% across the selected years"]
     | none => [])
  if parts.isEmpty then "" else " Key stats: " ++ String.intercalate "; " parts ++ "."

/-- `generate_summary`: branch priority coordinate, near, ranking,
comparison, insight-with-location, all-locations, no-location, default. -/
def generate_summary (parsed : ParsedQuery) (context : Context) : String :=
  if parsed.coordinate then
    let location := parsed.locations.headD "the requested location"
    match context.coordinate with
    | some (some lat, some lng) =>
      "Coordinates for " ++ location ++ ": lat " ++ format_value (some lat) ++
        ", lng " ++ format_value (some lng) ++ "."
    | _ => "Latitude/longitude for " ++ location ++ " could not be located in the dataset."
  else if parsed.near then
    let location := parsed.locations.headD "the target locality"
    if context.nearby.isEmpty then
      "No nearby localities were detected for " ++ location ++ "."
    else
      "Localities closest to " ++ location ++ " include " ++
        String.intercalate ", " (context.nearby.map (·.finalLocation)) ++ "."
  else if parsed.ranking then
    match context.ranking with
    | [] => "No ranking data was available for the requested metric."
    | top :: _ =>
      let tp := if top.year ≠ 0 then "in " ++ toString top.year else "based on the latest data"
      top.finalLocation ++ " leads " ++ metric_phrase parsed ++ " " ++ tp ++ " with " ++
        format_value top.value ++ "."
  else if parsed.comparison && decide (2 ≤ parsed.locations.length) then
    let neutral :=
      "Comparing " ++ metric_phrase parsed ++ " between " ++ parsed.locations.getD 0 "" ++
        " and " ++ parsed.locations.getD 1 "" ++ " " ++ time_phrase parsed ++ "."
    match context.comparison with
    | some c =>
      if c.winner ≠ "" && c.loser ≠ "" then
        c.winner ++ " currently outperforms " ++ c.loser ++ " for " ++ metric_phrase parsed ++
          " by " ++ format_value (some c.difference) ++
          ". Use the chart to inspect the year-wise divergence."
      else neutral
    | none => neutral
  else if parsed.general_insight && !parsed.locations.isEmpty then
    "Overview of " ++ metric_phrase parsed ++ " for " ++ parsed.locations.getD 0 "" ++ " " ++
      time_phrase parsed ++ "."
  else if parsed.all_locations && parsed.locations.isEmpty then
    "Aggregated " ++ metric_phrase parsed ++ " across Pune " ++ time_phrase parsed ++ "." ++
      stats_sentence context.stats
  else if parsed.locations.isEmpty then
    "No matching location was found in the dataset. Please refine the query."
  else
    "Showing " ++ metric_phrase parsed ++ " for " ++ parsed.locations.getD 0 "" ++ " " ++
      time_phrase parsed ++ "." ++ stats_sentence context.stats

/-! ## api/views.py -/

def BASE_METRIC_COLUMNS : List (String × String) :=
  [("price", "flat - weighted average rate"), ("demand", "total sold - igr"),
   ("supply", "total units"), ("sales", "total_sales - igr"), ("general", "total_sales - igr")]

def PROPERTY_METRIC_COLUMNS : List (String × List (String × String)) :=
  [("price", [("flat", "flat - weighted average rate"),
    ("office", "office - weighted average rate"), ("shop", "shop - weighted average rate")]),
   ("demand", [("flat", "flat_sold - igr"), ("office", "office_sold - igr"),
    ("shop", "shop_sold - igr")]),
   ("supply", [("flat", "flat total"), ("office", "office total"), ("shop", "shop total"),
    ("carpet_area", "total carpet area supplied (sqft)")]),
   ("sales", [("flat", "flat_sold - igr"), ("office", "office_sold - igr"),
    ("shop", "shop_sold - igr")])]

/-- `_metric_column_for_property`. -/
def metric_column_for_property (metric : String) (property_type : Option String) :
    Option String :=
  match property_type with
  | none => none
  | some pt =>
    if pt = "" then none
    else ((PROPERTY_METRIC_COLUMNS.lookup metric).getD []).lookup pt

/-- `_resolve_value_column`. -/
def resolve_value_column (p : ParsedQuery) : String :=
  let base := (BASE_METRIC_COLUMNS.lookup p.metric).getD "total_sales - igr"
  match p.property_types.head? with
  | some pt =>
    match metric_column_for_property p.metric (some pt) with
    | some c => c
    | none => base
  | none => base

/-- `_compute_stats`.  The dataframes of this pipeline always carry a year
column, so the `"year" in df.columns` fallback to a null year never fires. -/
def compute_stats (df : Frame) (column : String) (requested_stats : List String) : StatsCtx :=
  if !(df.cols.contains column) || df.rows.isEmpty || requested_stats.isEmpty then {}
  else
    let numeric := df.rows.filterMap (fun r => r.cell column)
    if numeric.isEmpty then {}
    else
      { average :=
          if requested_stats.contains "average" then some (numeric.sum / numeric.length)
          else none
        max :=
          if requested_stats.contains "max" then
            match numeric.max? with
            | some m =>
              match df.rows.find? (fun r => r.cell column == some m) with
              | some r => some (m, some r.year)
              | none => none
            | none => none
          else none
        min :=
          if requested_stats.contains "min" then
            match numeric.min? with
            | some m =>
              match df.rows.find? (fun r => r.cell column == some m) with
              | some r => some (m, some r.year)
              | none => none
            | none => none
          else none
        growth_rate :=
          if requested_stats.contains "growth_rate" && decide (2 ≤ numeric.length) then
            let ys := (sortRowsByYear df.rows).filterMap (fun r => r.cell column)
            match ys.head? with
            | some first =>
              if first ≠ 0 then
                let lastv := ys.getLastD first
                let g := (lastv - first) / first * 100
                some (round2 g, if 0 ≤ g then "increase" else "decrease")
              else none
            | none => none
          else none }

def RANKING_KEYWORDS_LIMIT : List String := ["which", "highest", "lowest", "most", "least"]

def DEFAULT_RANKING_LIMIT : Nat := 5

def NEARBY_LIMIT : Nat := 3

/-- `_resolve_ranking_limit` (Python truthiness: an explicit limit of 0 is
treated as absent). -/
def resolve_ranking_limit (p : ParsedQuery) : Nat :=
  if p.ranking_limit.getD 0 ≠ 0 then p.ranking_limit.getD 0
  else
    let lowered := pyLower p.raw_query.data
    if RANKING_KEYWORDS_LIMIT.any (fun k => subIn k.data lowered) then 1
    else DEFAULT_RANKING_LIMIT

/-- `_nearby_localities`, parameterized by the distance function.  The source
computes `_distance_km` with floating-point trigonometry (the haversine
formula with Earth radius 6371 km), which has no exact executable embedding;
the properties proved below are independent of the concrete distances, and
the failing input for C3 uses localities with identical coordinates, where
the haversine distance is exactly 0. -/
def nearby_localities (dist : Row → Row → ℚ) (df : Frame) (location : String) :
    List NearRec :=
  let latest := latest_records_per_location df
  let locLower := String.mk (pyLower location.data)
  match latest.rows.find? (fun r => pyStripLowerStr r.finalLocation == locLower) with
  | none => []
  | some base =>
    let others := latest.rows.filter (fun r => !(pyStripLowerStr r.finalLocation == locLower))
    if others.isEmpty then []
    else
      let withDist := others.map (fun r => (r, round2 (dist base r)))
      let order := nargsortNoNa (withDist.map (·.2)) true
      let nearest := (order.map (fun i => withDist.getD i (defaultRow, 0))).take NEARBY_LIMIT
      nearest.map (fun p =>
        { finalLocation := p.1.finalLocation, locLat := p.1.locLat, locLng := p.1.locLng,
          distance_km := p.2 })

inductive RankResp where
  | ok (summary : String) (chart_type : String) (chart : BarChart) (table : List RankRow)
  | err (status : Nat) (detail : String)
deriving DecidableEq, Repr

/-- `_handle_ranking`. -/
def handle_ranking (df : Frame) (parsed : ParsedQuery) : RankResp :=
  let value_column := resolve_value_column parsed
  let ranking_df := ranking_frame df parsed.year
  if !(ranking_df.cols.contains value_column) then
    .err 400 ("Column '" ++ value_column ++ "' is missing in the data.")
  else
    let rows := ranking_df.rows.filter (fun r => (r.cell value_column).isSome)
    if rows.isEmpty then .err 404 "No data available for ranking."
    else
      let keys := rows.map (fun r => (r.cell value_column).getD 0)
      let order := nargsortNoNa keys (parsed.ranking_order == "asc")
      let sortedRows := order.map (fun i => rows.getD i defaultRow)
      let limited := sortedRows.take (resolve_ranking_limit parsed)
      let chart := build_bar_chart (limited.map (·.finalLocation))
        (limited.map (fun r => (r.cell value_column).map PyFloat.finite))
      let table := limited.enum.map (fun p =>
        { rank := p.1 + 1, finalLocation := p.2.finalLocation,
          value := p.2.cell value_column, year := p.2.year : RankRow })
      .ok (generate_summary parsed { ranking := table }) "bar" chart table

/-- The chronologically last value of the filtered window:
`frame.sort_values("year").iloc[-1][value_column]`. -/
def comparison_last_value (f : Frame) (column : String) : Option ℚ :=
  match (sortRowsByYear f.rows).getLast? with
  | some r => r.cell column
  | none => none

/-- The winner/loser context of `_handle_comparison`: filled only when both
last values are present and unequal. -/
def comparison_context (first_df second_df : Frame)
    (first_location second_location column : String) : Option CompCtx :=
  match comparison_last_value first_df column, comparison_last_value second_df column with
  | some a, some b =>
    if b < a then some { winner := first_location, loser := second_location, difference := a - b }
    else if a < b then
      some { winner := second_location, loser := first_location, difference := b - a }
    else none
  | _, _ => none

inductive CompResp where
  | ok (summary : String) (chart_type : String) (chart : MultiLineChart) (table : List Row)
  | err (status : Nat) (detail : String)
deriving DecidableEq, Repr

/-- `_handle_comparison`. -/
def handle_comparison (df : Frame) (parsed : ParsedQuery) : CompResp :=
  if parsed.locations.length < 2 then
    .err 400 "Please mention two locations for comparison."
  else
    let value_column := resolve_value_column parsed
    let first_location := parsed.locations.getD 0 ""
    let second_location := parsed.locations.getD 1 ""
    let fs := filter_two_locations df first_location second_location parsed.year
      parsed.year_range parsed.last_n_years
    if fs.1.rows.isEmpty || fs.2.rows.isEmpty then
      .err 404 "Requested locations are missing in the data."
    else if !(fs.1.cols.contains value_column) || !(fs.2.cols.contains value_column) then
      .err 400 ("Column '" ++ value_column ++ "' is missing in the data.")
    else
      let chart := build_multi_line_chart
        [(first_location, fs.1), (second_location, fs.2)] value_column
      let table := insertionSortBy lexLocYearLe (fs.1.rows ++ fs.2.rows)
      let ctx := comparison_context fs.1 fs.2 first_location second_location value_column
      .ok (generate_summary parsed { comparison := ctx }) "multi_line" chart table

/-! ## Response projections and concrete instances used by the claims -/

/-- The number of emitted table rows of a ranking response. -/
def rankTableLen : RankResp → Option Nat
  | .ok _ _ _ t => some t.length
  | .err _ _ => none

/-- The emitted location order of a ranking response. -/
def rankTableLocs : RankResp → Option (List String)
  | .ok _ _ _ t => some (t.map (·.finalLocation))
  | .err _ _ => none

/-- The summary sentence of a comparison response. -/
def compSummary : CompResp → Option String
  | .ok s _ _ _ => some s
  | .err _ _ => none

/-- The ranking truncation limit exactly as claim C6 states it: the explicit
top-N value whenever present (including an explicit 0); else 1 on a
singular-superlative word in the raw query; else 5. -/
def rankingLimitClaim (p : ParsedQuery) : Nat :=
  match p.ranking_limit with
  | some n => n
  | none =>
    if RANKING_KEYWORDS_LIMIT.any (fun k => subIn k.data (pyLower p.raw_query.data)) then 1
    else DEFAULT_RANKING_LIMIT

/-- The ranking truncation limit as amended (C6): the explicit top-N value
when present AND positive — an explicit limit of 0 is treated as absent;
else 1 on a singular-superlative word in the raw query; else 5. -/
def rankingLimitSpec (p : ParsedQuery) : Nat :=
  match p.ranking_limit with
  | some n =>
    if 0 < n then n
    else if RANKING_KEYWORDS_LIMIT.any (fun k => subIn k.data (pyLower p.raw_query.data)) then 1
    else DEFAULT_RANKING_LIMIT
  | none =>
    if RANKING_KEYWORDS_LIMIT.any (fun k => subIn k.data (pyLower p.raw_query.data)) then 1
    else DEFAULT_RANKING_LIMIT

/-- A dataset row holding a single price cell. -/
def priceRow (name : String) (y : Int) (v : Option ℚ) : Row :=
  { finalLocation := name, year := y, locLat := 10, locLng := 20,
    cells := [("flat - weighted average rate", v)] }

/-- Two-location frame for the C6 counterexample. -/
def c6Frame : Frame :=
  { cols := ["flat - weighted average rate"],
    rows := [priceRow "Aaa" 2021 (some 5), priceRow "Bbb" 2022 (some 7)] }

/-- Zero-padded two-digit labels `L00`, `L01`, …, so that the canonical
string order agrees with the construction order. -/
def padLabel (pre : String) (i : Nat) : String :=
  pre ++ (if i < 10 then "0" else "") ++ toString i

/-- Seventeen distinct localities, same year, all with the SAME value in the
price column: every pair of rows is a tie for the ranking sort. -/
def tieFrame17 : Frame :=
  { cols := ["flat - weighted average rate"],
    rows := (List.range 17).map (fun i => priceRow (padLabel "L" i) 2023 (some 1)) }

/-- An ascending location-less ranking request over `tieFrame17` asking for
all 17 rows. -/
def tieRankQuery : ParsedQuery :=
  { raw_query := "rank by price for 2023", locations := [], metric := "price",
    ranking := true, ranking_order := "asc", ranking_limit := some 17, year := some 2023 }

/-- A base locality plus 18 other localities, one record each, sharing the
SAME coordinates: every other locality is at haversine distance exactly 0
from the base, so all distances tie. -/
def nearFrame19 : Frame :=
  { cols := ["flat - weighted average rate"],
    rows := priceRow "Base" 2023 (some 1) ::
      (List.range 18).map (fun i => priceRow (padLabel "N" (i + 1)) 2023 (some 1)) }

/-- Frame for the C7 witness: two records out of chronological order. -/
def c7Frame : Frame :=
  { cols := ["c"],
    rows := [{ finalLocation := "X", year := 2021, locLat := 0, locLng := 0,
               cells := [("c", some 150)] },
             { finalLocation := "X", year := 2020, locLat := 0, locLng := 0,
               cells := [("c", some 100)] }] }

/-- Frame for the C9 witness: both locations end 2021 at the same value. -/
def c9Frame : Frame :=
  { cols := ["flat - weighted average rate"],
    rows := [priceRow "Kharadi" 2020 (some 100), priceRow "Kharadi" 2021 (some 120),
             priceRow "Wakad" 2020 (some 90), priceRow "Wakad" 2021 (some 120)] }

/-- Comparison descriptor for the C9 witness. -/
def c9Query : ParsedQuery :=
  { raw_query := "compare kharadi and wakad price", locations := ["Kharadi", "Wakad"],
    metric := "price", comparison := true }

/-- Frame and location-less ranking descriptor for the C10 witness. -/
def c10Frame : Frame :=
  { cols := ["flat - weighted average rate"],
    rows := [priceRow "Aaa" 2020 (some 3), priceRow "Aaa" 2021 (some 4),
             priceRow "Bbb" 2021 (some 9)] }

def c10Query : ParsedQuery :=
  { raw_query := "highest price", locations := [], metric := "price",
    ranking := true, ranking_order := "desc" }

/-! ## Support lemmas -/

theorem insertLe_length {α : Type} (le : α → α → Bool) (x : α) (l : List α) :
    (insertLe le x l).length = l.length + 1 := by
  induction l with
  | nil => rfl
  | cons y ys ih => simp only [insertLe]; split <;> simp [ih]

theorem insertionSortBy_length {α : Type} (le : α → α → Bool) (l : List α) :
    (insertionSortBy le l).length = l.length := by
  induction l with
  | nil => rfl
  | cons x xs ih => simp [insertionSortBy, insertLe_length, ih]

theorem insertLe_perm {α : Type} (le : α → α → Bool) (x : α) (l : List α) :
    (insertLe le x l).Perm (x :: l) := by
  induction l with
  | nil => exact List.Perm.refl _
  | cons y ys ih =>
    simp only [insertLe]
    split
    · exact List.Perm.refl _
    · exact (ih.cons y).trans (List.Perm.swap x y ys)

theorem insertionSortBy_perm {α : Type} (le : α → α → Bool) (l : List α) :
    (insertionSortBy le l).Perm l := by
  induction l with
  | nil => exact List.Perm.refl _
  | cons x xs ih => exact (insertLe_perm le x _).trans (ih.cons x)

theorem mem_insertLe {α : Type} (le : α → α → Bool) (x a : α) (l : List α) :
    a ∈ insertLe le x l ↔ a = x ∨ a ∈ l := by
  rw [(insertLe_perm le x l).mem_iff, List.mem_cons]

theorem mem_insertionSortBy {α : Type} (le : α → α → Bool) (a : α) (l : List α) :
    a ∈ insertionSortBy le l ↔ a ∈ l :=
  (insertionSortBy_perm le l).mem_iff

theorem insertLe_pairwise {α : Type} (le : α → α → Bool)
    (htot : ∀ a b, le a b = false → le b a = true)
    (htrans : ∀ a b c, le a b = true → le b c = true → le a c = true)
    (x : α) (l : List α) (h : l.Pairwise (fun a b => le a b = true)) :
    (insertLe le x l).Pairwise (fun a b => le a b = true) := by
  induction l with
  | nil => exact List.Pairwise.cons (by intro b hb; cases hb) List.Pairwise.nil
  | cons y ys ih =>
    simp only [insertLe]
    rcases hxy : le x y with _ | _
    · rw [if_neg (by simp)]
      refine List.Pairwise.cons ?_ (ih (List.pairwise_cons.mp h).2)
      intro b hb
      rcases (mem_insertLe le x b ys).mp hb with hbx | hb2
      · rw [hbx]; exact htot x y hxy
      · exact (List.pairwise_cons.mp h).1 _ hb2
    · rw [if_pos rfl]
      refine List.Pairwise.cons ?_ h
      intro b hb
      rcases List.mem_cons.mp hb with hbx | hb2
      · rw [hbx]; exact hxy
      · exact htrans x y b hxy ((List.pairwise_cons.mp h).1 _ hb2)

theorem insertionSortBy_pairwise {α : Type} (le : α → α → Bool)
    (htot : ∀ a b, le a b = false → le b a = true)
    (htrans : ∀ a b c, le a b = true → le b c = true → le a c = true) (l : List α) :
    (insertionSortBy le l).Pairwise (fun a b => le a b = true) := by
  induction l with
  | nil => exact List.Pairwise.nil
  | cons x xs ih => exact insertLe_pairwise le htot htrans x _ ih

theorem dedupAdj_sublist {α : Type} [BEq α] (l : List α) : (dedupAdj l).Sublist l := by
  induction l with
  | nil => exact List.Sublist.refl _
  | cons x t ih =>
    cases t with
    | nil => exact List.Sublist.refl _
    | cons y rest =>
      simp only [dedupAdj]
      split
      · exact ih.cons x
      · exact ih.cons₂ x

theorem mem_dedupAdj {α : Type} [BEq α] [LawfulBEq α] (a : α) (l : List α) :
    a ∈ dedupAdj l ↔ a ∈ l := by
  constructor
  · exact fun h => (dedupAdj_sublist l).mem h
  · intro h
    induction l with
    | nil => cases h
    | cons x t ih =>
      cases t with
      | nil => exact h
      | cons y rest =>
        simp only [dedupAdj]
        split
        · rename_i hxy
          rcases List.mem_cons.mp h with rfl | h
          · exact ih (by simp [eq_of_beq hxy])
          · exact ih h
        · rcases List.mem_cons.mp h with rfl | h
          · exact List.mem_cons_self _ _
          · exact List.mem_cons_of_mem _ (ih h)

theorem dedupAdj_pairwise {α : Type} [BEq α] {R : α → α → Prop} {l : List α}
    (h : l.Pairwise R) : (dedupAdj l).Pairwise R :=
  h.sublist (dedupAdj_sublist l)

theorem mem_sortedDedupNat (a : Nat) (l : List Nat) : a ∈ sortedDedupNat l ↔ a ∈ l := by
  rw [sortedDedupNat, mem_dedupAdj, mem_insertionSortBy]

theorem sortedDedupNat_pairwise (l : List Nat) :
    (sortedDedupNat l).Pairwise (fun a b => a ≤ b) := by
  have h := insertionSortBy_pairwise (fun a b : Nat => decide (a ≤ b))
    (fun a b hab => by simpa using Nat.le_of_lt (by simpa using hab))
    (fun a b c hab hbc => by simp at *; omega) l
  have := dedupAdj_pairwise (l := insertionSortBy (fun a b : Nat => decide (a ≤ b)) l) h
  exact (List.Pairwise.imp (by intro a b hab; simpa using hab)) this

theorem pairwise_le_getLastD {α : Type} {R : α → α → Prop} (hrefl : ∀ a, R a a)
    {l : List α} (h : l.Pairwise R) :
    ∀ x ∈ l, ∀ d, R x (l.getLastD d) := by
  induction l with
  | nil => intro x hx; cases hx
  | cons a t ih =>
    intro x hx d
    cases t with
    | nil =>
      rcases List.mem_cons.mp hx with hxa | hx
      · rw [hxa]; exact hrefl a
      · cases hx
    | cons b rest =>
      rw [List.getLastD_cons]
      rcases List.mem_cons.mp hx with hxa | hx
      · rw [List.getLastD_cons, hxa]
        have hlast : rest.getLastD b ∈ b :: rest := List.getLastD_mem_cons rest b
        exact (List.pairwise_cons.mp h).1 _ hlast
      · exact ih (List.pairwise_cons.mp h).2 x hx a

theorem npSwap_length (ts : List Nat) (i j : Nat) : (npSwap ts i j).length = ts.length := by
  simp [npSwap]

theorem npPartitionLoop_length (vs : List ℚ) (vp : ℚ) (fuel : Nat) :
    ∀ ts pi pj, ((npPartitionLoop vs vp fuel ts pi pj).1).length = ts.length := by
  induction fuel with
  | zero => intro ts pi pj; rfl
  | succ n ih =>
    intro ts pi pj
    simp only [npPartitionLoop]
    split
    · rfl
    · rw [ih, npSwap_length]

theorem npInsShift_length (vs : List ℚ) (vp : ℚ) (vi pl : Nat) (fuel : Nat) :
    ∀ ts pj, (npInsShift vs vp vi pl fuel ts pj).length = ts.length := by
  induction fuel with
  | zero => intro ts pj; simp [npInsShift]
  | succ n ih =>
    intro ts pj
    simp only [npInsShift]
    split
    · rw [ih]; simp
    · simp

theorem npInsSeg_length (vs : List ℚ) (ts : List Nat) (pl pr : Nat) :
    (npInsSeg vs ts pl pr).length = ts.length := by
  rw [npInsSeg]
  generalize List.range' (pl + 1) (pr - pl) = idxs
  induction idxs generalizing ts with
  | nil => rfl
  | cons i rest ih => simp only [List.foldl_cons]; rw [ih, npInsShift_length]

theorem npSift_length (vs : List ℚ) (pl n tmp : Nat) (fuel : Nat) :
    ∀ ts i j, (npSift vs pl n tmp fuel ts i j).length = ts.length := by
  induction fuel with
  | zero => intro ts i j; simp [npSift]
  | succ f ih =>
    intro ts i j
    simp only [npSift]
    split
    · split <;> split <;> simp [ih]
    · simp

theorem npHeapBuild_length (vs : List ℚ) (pl n : Nat) (l : Nat) :
    ∀ ts, (npHeapBuild vs pl n l ts).length = ts.length := by
  induction l with
  | zero => intro ts; rfl
  | succ m ih => intro ts; simp only [npHeapBuild]; rw [ih, npSift_length]

theorem npHeapExtract_length (vs : List ℚ) (pl : Nat) :
    ∀ n ts, (npHeapExtract vs pl n ts).length = ts.length := by
  intro n
  induction n using Nat.strong_induction_on with
  | _ n ih =>
    match n with
    | 0 => intro ts; rfl
    | 1 => intro ts; rfl
    | m + 2 =>
      intro ts
      rw [npHeapExtract, ih (m + 1) (by omega), npSift_length]
      simp

theorem npHeapSeg_length (vs : List ℚ) (ts : List Nat) (pl pr : Nat) :
    (npHeapSeg vs ts pl pr).length = ts.length := by
  rw [npHeapSeg, npHeapExtract_length, npHeapBuild_length]

theorem npPartitionStep_length (vs : List ℚ) (ts : List Nat) (pl pr : Nat) :
    ((npPartitionStep vs ts pl pr).1).length = ts.length := by
  rw [npPartitionStep]
  dsimp only
  split_ifs <;> simp [npSwap_length, npPartitionLoop_length]

theorem npIntrosort_length (vs : List ℚ) (fuel : Nat) :
    ∀ ts stack pl pr depth, (npIntrosort vs fuel ts stack pl pr depth).length = ts.length := by
  induction fuel with
  | zero => intro ts stack pl pr depth; rfl
  | succ f ih =>
    intro ts stack pl pr depth
    rw [npIntrosort]
    split
    · split
      · rcases stack with _ | ⟨⟨pl', pr'⟩, rest⟩
        · simp [npHeapSeg_length]
        · dsimp only
          rw [ih, npHeapSeg_length]
      · dsimp only
        split <;> rw [ih, npPartitionStep_length]
    · rcases stack with _ | ⟨⟨pl', pr'⟩, rest⟩
      · simp [npInsSeg_length]
      · dsimp only
        rw [ih, npInsSeg_length]

theorem npArgsortQuicksort_length (vs : List ℚ) :
    (npArgsortQuicksort vs).length = vs.length := by
  rw [npArgsortQuicksort, npIntrosort_length, List.length_range]

theorem nargsortNoNa_length (vs : List ℚ) (ascending : Bool) :
    (nargsortNoNa vs ascending).length = vs.length := by
  rw [nargsortNoNa]
  split
  · exact npArgsortQuicksort_length vs
  · simp [npArgsortQuicksort_length]

theorem dedupAdj_eq_single {α : Type} [BEq α] [LawfulBEq α] (y : α) :
    ∀ l : List α, l ≠ [] → (∀ x ∈ l, x = y) → dedupAdj l = [y] := by
  intro l
  induction l with
  | nil => intro h; exact absurd rfl h
  | cons x t ih =>
    intro _ hall
    cases t with
    | nil => simp [dedupAdj, hall x (List.mem_cons_self x [])]
    | cons z rest =>
      have hx : x = y := hall x (by simp)
      have hz : z = y := hall z (by simp)
      have hxz : (x == z) = true := by simp [hx, hz]
      simp only [dedupAdj, hxz, if_pos]
      exact ih (by simp) (fun w hw => hall w (List.mem_cons_of_mem x hw))

theorem sortedDedupNat_eq_single (y : Nat) (l : List Nat) (hne : l ≠ [])
    (hall : ∀ x ∈ l, x = y) : sortedDedupNat l = [y] := by
  rw [sortedDedupNat]
  refine dedupAdj_eq_single y _ ?_ ?_
  · intro h
    have := insertionSortBy_length (fun a b : Nat => decide (a ≤ b)) l
    rw [h] at this
    exact hne (List.eq_nil_of_length_eq_zero this.symm)
  · intro x hx
    exact hall x ((mem_insertionSortBy _ x l).mp hx)

/-! ## Claim theorems -/

/-- C1: `parse_query` never sets both the ranking flag and the extrema flag:
the ranking flag equals (ranking keyword signal AND zero resolved
locations), the extrema flag equals (ranking keyword signal AND at least one
resolved location), so the two flags are mutually exclusive for every query
text and location list. -/
theorem c1_ranking_extrema_bifurcation (q : String) (locs : List String) :
    (parse_query q locs).ranking
      = ((detect_ranking (loweredQuery q)).1 && (parse_query q locs).locations.isEmpty)
    ∧ (parse_query q locs).extrema
      = ((detect_ranking (loweredQuery q)).1 && !(parse_query q locs).locations.isEmpty)
    ∧ ((parse_query q locs).ranking && (parse_query q locs).extrema) = false := by
  refine ⟨rfl, rfl, ?_⟩
  have key : ∀ a b : Bool, ((a && b) && (a && !b)) = false := by decide
  exact key (detect_ranking (loweredQuery q)).1 (parse_query q locs).locations.isEmpty

/-- C5: whenever the `top N` pattern matches with a parseable integer N,
`_detect_ranking` reports ranking=true, order descending and explicit limit
N — overriding any ascending superlative keywords in the same text. -/
theorem c5_top_n_overrides (s : List Char) (n : Nat) (h : topNSearch s = some n) :
    detect_ranking s = (true, "desc", some n) := by
  simp [detect_ranking, h]

/-- C5 witness: "top 3 lowest supply" carries an ascending keyword, yet the
detection yields a descending explicit-limit ranking. -/
theorem c5_top_n_overrides_witness :
    topNSearch ("top 3 lowest supply".data) = some 3
    ∧ detect_boolean_wb (loweredQuery "top 3 lowest supply") RANKING_ASC_KEYWORDS = true
    ∧ detect_ranking ("top 3 lowest supply".data) = (true, "desc", some 3) :=
  ⟨by decide, by decide, c5_top_n_overrides ("top 3 lowest supply".data) 3 (by decide)⟩

/-- C4: `_extract_years` activates at most one of single year / year range;
a connector-pattern match yields the sorted inclusive pattern years and no
single year; otherwise exactly one distinct bare 20xx year yields that
single year and no range, and two or more distinct bare years yield the
range from the smallest to the largest and no single year. -/
theorem c4_extract_years_shape (s : List Char) :
    (¬((extract_years s).1.isSome = true ∧ (extract_years s).2.isSome = true))
    ∧ (∀ a b, rangeSearch s = some (a, b) →
        extract_years s = (none, some (Nat.min a b, Nat.max a b)))
    ∧ (rangeSearch s = none → ∀ y, yearFindall s ≠ [] → (∀ x ∈ yearFindall s, x = y) →
        extract_years s = (some y, none))
    ∧ (rangeSearch s = none → ∀ x₁ x₂, x₁ ∈ yearFindall s → x₂ ∈ yearFindall s → x₁ ≠ x₂ →
        ∃ lo hi, extract_years s = (none, some (lo, hi)) ∧ lo ∈ yearFindall s
          ∧ hi ∈ yearFindall s ∧ ∀ x ∈ yearFindall s, lo ≤ x ∧ x ≤ hi) := by
  refine ⟨?_, ?_, ?_, ?_⟩
  · rcases hr : rangeSearch s with _ | ⟨a, b⟩
    · rcases hu : sortedDedupNat (yearFindall s) with _ | ⟨y, _ | ⟨z, rest⟩⟩ <;>
        simp [extract_years, hr, hu]
    · simp [extract_years, hr]
  · intro a b hr
    simp [extract_years, hr]
  · intro hr y hne hall
    have hu : sortedDedupNat (yearFindall s) = [y] := sortedDedupNat_eq_single y _ hne hall
    simp [extract_years, hr, hu]
  · intro hr x₁ x₂ hm1 hm2 hne
    have hm1u : x₁ ∈ sortedDedupNat (yearFindall s) := (mem_sortedDedupNat _ _).mpr hm1
    have hm2u : x₂ ∈ sortedDedupNat (yearFindall s) := (mem_sortedDedupNat _ _).mpr hm2
    rcases hu : sortedDedupNat (yearFindall s) with _ | ⟨y, _ | ⟨z, rest⟩⟩
    · rw [hu] at hm1u; cases hm1u
    · rw [hu] at hm1u hm2u
      rcases List.mem_cons.mp hm1u with h1 | h1
      · rcases List.mem_cons.mp hm2u with h2 | h2
        · exact absurd (h1.trans h2.symm) hne
        · cases h2
      · cases h1
    · have hpw := sortedDedupNat_pairwise (yearFindall s)
      rw [hu] at hpw
      refine ⟨y, (z :: rest).getLastD y, ?_, ?_, ?_, ?_⟩
      · simp [extract_years, hr, hu]
      · exact (mem_sortedDedupNat _ _).mp (by rw [hu]; exact List.mem_cons_self _ _)
      · refine (mem_sortedDedupNat _ _).mp ?_
        rw [hu]
        exact List.getLastD_mem_cons (z :: rest) y
      · intro x hx
        have hxu : x ∈ y :: z :: rest := by
          rw [← hu]; exact (mem_sortedDedupNat _ _).mpr hx
        constructor
        · rcases List.mem_cons.mp hxu with hxy | hxt
          · rw [hxy]
          · exact (List.pairwise_cons.mp hpw).1 _ hxt
        · have := pairwise_le_getLastD (R := fun a b : Nat => a ≤ b) (fun a => le_refl a)
            hpw x hxu y
          rwa [List.getLastD_cons] at this

/-- C4 witness: an explicit connector range suppresses the three bare years
and yields the sorted pattern range. -/
theorem c4_extract_years_witness :
    rangeSearch ("from 2019 and 2021 vs 2020".data) = some (2019, 2021)
    ∧ extract_years ("from 2019 and 2021 vs 2020".data)
        = (none, some (Nat.min 2019 2021, Nat.max 2019 2021)) :=
  ⟨by decide,
   (c4_extract_years_shape ("from 2019 and 2021 vs 2020".data)).2.1 2019 2021 (by decide)⟩

/-- C8 counterexample: an infinite input value is NOT rendered as null by
the chart sanitizer — `pd.notna` is true on ±infinity, so the value passes
through as a float, contradicting "every missing or non-finite input value
appears as null". -/
theorem c8_infinity_counterexample :
    sanitize_values [some PyFloat.inf] = [some PyFloat.inf]
    ∧ some PyFloat.inf ≠ (none : Option PyFloat) :=
  ⟨rfl, by decide⟩

/-- C8 amended: sanitization keeps length and positions; missing (None) and
NaN inputs become null and are never coerced to zero; every other input —
finite or ±infinite — passes through unchanged as a plain float. -/
theorem c8_sanitize_pointwise (values : List (Option PyFloat)) :
    (sanitize_values values).length = values.length
    ∧ ∀ i : Nat, (sanitize_values values)[i]?
        = (values[i]?).map (fun v =>
            match v with
            | none => none
            | some PyFloat.nan => none
            | some x => some x) := by
  constructor
  · simp [sanitize_values]
  · intro i
    simp only [sanitize_values, List.getElem?_map]
    cases hv : values[i]? with
    | none => rfl
    | some v =>
      simp only [Option.map_some']
      congr 1
      rcases v with _ | v
      · rfl
      · rcases v with q | _ | _ | _ <;> rfl

theorem lookup_eq_none_of_not_mem {β : Type} (c : String) (l : List (String × β))
    (h : c ∉ l.map Prod.fst) : l.lookup c = none := by
  induction l with
  | nil => rfl
  | cons p rest ih =>
    rcases p with ⟨k, v⟩
    simp only [List.map, List.mem_cons, not_or] at h
    have hck : (c == k) = false := beq_eq_false_iff_ne.mpr h.1
    simp only [List.lookup, hck]
    exact ih h.2

/-- With a well-formed frame and a column absent from the frame, every cell
lookup is none. -/
theorem cell_eq_none_of_not_col (df : Frame) (column : String) (hwf : Frame.WF df)
    (hcol : column ∉ df.cols) : ∀ r ∈ df.rows, r.cell column = none := by
  intro r hr
  rw [Row.cell, lookup_eq_none_of_not_mem]
  · rfl
  · rw [hwf r hr]; exact hcol

/-- C7: with growth-rate requested, `_compute_stats` emits a growth_rate
entry iff the column has at least two non-null values and the
chronologically first non-null value is non-zero; the entry's value is the
2-decimal-rounded percentage change from the chronologically first to the
chronologically last non-null value, with direction "increase" when the
change is non-negative and "decrease" otherwise; when the preconditions
fail, the entry is simply absent and no error is raised.  The distinct-year
hypothesis makes "chronologically first/last" well defined (pandas sorts by
year with an unstable sort; on distinct years every sort agrees). -/
theorem c7_growth_rate (df : Frame) (column : String) (req : List String)
    (hwf : Frame.WF df) (_hyears : ((df.rows.map (·.year)).Nodup))
    (hreq : "growth_rate" ∈ req) :
    ((compute_stats df column req).growth_rate.isSome = true
      ↔ 2 ≤ (df.rows.filterMap (fun r => r.cell column)).length
        ∧ ((sortRowsByYear df.rows).filterMap (fun r => r.cell column)).head? ≠ some 0)
    ∧ (∀ v d, (compute_stats df column req).growth_rate = some (v, d) →
        ∃ a b, ((sortRowsByYear df.rows).filterMap (fun r => r.cell column)).head? = some a
          ∧ ((sortRowsByYear df.rows).filterMap (fun r => r.cell column)).getLast? = some b
          ∧ v = round2 ((b - a) / a * 100)
          ∧ d = (if 0 ≤ (b - a) / a * 100 then "increase" else "decrease")) := by
  have hperm : ((sortRowsByYear df.rows).filterMap (fun r => r.cell column)).Perm
      (df.rows.filterMap (fun r => r.cell column)) :=
    (insertionSortBy_perm _ df.rows).filterMap _
  have hlen := hperm.length_eq
  by_cases hcol : column ∈ df.cols
  · have hcontains : df.cols.contains column = true := List.elem_iff.mpr hcol
    by_cases hrows : df.rows = []
    · constructor
      · simp [compute_stats, hrows, sortRowsByYear, insertionSortBy]
      · intro v d hv
        simp [compute_stats, hrows] at hv
    · have hrowsE : df.rows.isEmpty = false := List.isEmpty_eq_false.mpr hrows
      have hreqE : req.isEmpty = false :=
        List.isEmpty_eq_false.mpr (List.ne_nil_of_mem hreq)
      have hreqC : req.contains "growth_rate" = true := List.elem_iff.mpr hreq
      by_cases hnum : (df.rows.filterMap (fun r => r.cell column)).isEmpty = true
      · have hnil : df.rows.filterMap (fun r => r.cell column) = [] := by
          rwa [List.isEmpty_iff] at hnum
        constructor
        · simp [compute_stats, hcontains, hrowsE, hreqE, hnum, hnil]
        · intro v d hv
          simp [compute_stats, hcontains, hrowsE, hreqE, hnum] at hv
      · have hnumE : (df.rows.filterMap (fun r => r.cell column)).isEmpty = false := by
          simpa using hnum
        have hgr : (compute_stats df column req).growth_rate
            = (if req.contains "growth_rate"
                  && decide (2 ≤ (df.rows.filterMap (fun r => r.cell column)).length) then
                match ((sortRowsByYear df.rows).filterMap (fun r => r.cell column)).head? with
                | some first =>
                  if first ≠ 0 then
                    let lastv := ((sortRowsByYear df.rows).filterMap
                      (fun r => r.cell column)).getLastD first
                    let g := (lastv - first) / first * 100
                    some (round2 g, if 0 ≤ g then "increase" else "decrease")
                  else none
                | none => none
              else none) := by
          simp only [compute_stats, hcontains, hrowsE, hreqE, hnumE, Bool.not_true,
            Bool.false_or, Bool.or_self, Bool.or_false, if_false]
          rfl
        by_cases hn2 : 2 ≤ (df.rows.filterMap (fun r => r.cell column)).length
        · have hys : ((sortRowsByYear df.rows).filterMap (fun r => r.cell column)) ≠ [] := by
            intro hnil
            rw [hnil] at hlen
            simp at hlen
            omega
          obtain ⟨a, ha⟩ := Option.isSome_iff_exists.mp (List.head?_isSome.mpr hys)
          obtain ⟨b, hb⟩ := Option.isSome_iff_exists.mp (List.getLast?_isSome.mpr hys)
          have hlastD : ((sortRowsByYear df.rows).filterMap
              (fun r => r.cell column)).getLastD a = b := by
            rw [List.getLastD_eq_getLast?, hb]; rfl
          rw [hgr, if_pos (by simp [hreqC, hn2, hreq])]
          simp only [ha]
          by_cases ha0 : a = 0
          · subst ha0
            constructor
            · simp
            · intro v d hv; simp at hv
          · constructor
            · rw [if_pos ha0]
              constructor
              · intro _
                exact ⟨hn2, by intro hc; exact ha0 (by injection hc)⟩
              · intro _; simp
            · intro v d hv
              rw [if_pos ha0] at hv
              simp only [hlastD, Option.some.injEq, Prod.mk.injEq] at hv
              exact ⟨a, b, rfl, hb, hv.1.symm, hv.2.symm⟩
        · rw [hgr, if_neg (by simp [hn2])]
          constructor
          · simp [hn2]
          · intro v d hv; cases hv
  · have hcontains : df.cols.contains column = false := by
      rcases hcf : df.cols.contains column with _ | _
      · rfl
      · exact absurd (List.elem_iff.mp hcf) hcol
    have hnil : df.rows.filterMap (fun r => r.cell column) = [] := by
      rw [List.filterMap_eq_nil_iff]
      exact cell_eq_none_of_not_col df column hwf hcol
    constructor
    · simp [compute_stats, hcontains, hcol, hnil]
    · intro v d hv
      simp [compute_stats, hcontains, hcol] at hv

/-- C7 witness: a two-record frame given out of chronological order yields a
growth_rate entry, and the instantiated characterization holds. -/
theorem c7_growth_rate_witness :
    Frame.WF c7Frame
    ∧ ((compute_stats c7Frame "c" ["growth_rate"]).growth_rate.isSome = true) := by
  have hwf : Frame.WF c7Frame := by intro r hr; fin_cases hr <;> rfl
  refine ⟨hwf, ?_⟩
  exact (c7_growth_rate c7Frame "c" ["growth_rate"] hwf (by decide)
    (by decide)).1.mpr ⟨by decide, by decide⟩

theorem comp_ctx_some_some {f1 f2 : Frame} {l0 l1 c : String} {va vb : ℚ}
    (h1 : comparison_last_value f1 c = some va)
    (h2 : comparison_last_value f2 c = some vb) :
    comparison_context f1 f2 l0 l1 c
      = (if vb < va then some { winner := l0, loser := l1, difference := va - vb }
         else if va < vb then some { winner := l1, loser := l0, difference := vb - va }
         else none) := by
  rw [comparison_context, h1, h2]

theorem comp_ctx_none {f1 f2 : Frame} {l0 l1 c : String}
    (h : comparison_last_value f1 c = none ∨ comparison_last_value f2 c = none) :
    comparison_context f1 f2 l0 l1 c = none := by
  rcases h with h | h
  · rw [comparison_context, h]
  · rw [comparison_context, h]
    rcases comparison_last_value f1 c with _ | va <;> rfl

/-- The chronologically last row of a non-empty frame: the row delivered by
sorting on year is a member carrying a maximal year, and
`comparison_last_value` reads the value column of exactly that row. -/
theorem comparison_last_value_spec (f : Frame) (c : String) (hne : f.rows ≠ []) :
    ∃ r, (sortRowsByYear f.rows).getLast? = some r ∧ r ∈ f.rows
      ∧ (∀ r' ∈ f.rows, r'.year ≤ r.year) ∧ comparison_last_value f c = r.cell c := by
  have hperm : (sortRowsByYear f.rows).Perm f.rows :=
    insertionSortBy_perm (fun a b : Row => decide (a.year ≤ b.year)) f.rows
  have hsne : sortRowsByYear f.rows ≠ [] := by
    intro h0
    have hl := hperm.length_eq
    rw [h0] at hl
    exact hne (List.eq_nil_of_length_eq_zero hl.symm)
  obtain ⟨r, hr⟩ := Option.isSome_iff_exists.mp (List.getLast?_isSome.mpr hsne)
  have hpw : (sortRowsByYear f.rows).Pairwise
      (fun a b : Row => decide (a.year ≤ b.year) = true) :=
    insertionSortBy_pairwise (fun a b : Row => decide (a.year ≤ b.year))
      (fun a b hab => by simp at hab ⊢; omega)
      (fun a b c hab hbc => by simp at hab hbc ⊢; omega) f.rows
  refine ⟨r, hr, ?_, ?_, ?_⟩
  · exact hperm.mem_iff.mp (List.mem_of_mem_getLast? (by rw [hr]; rfl))
  · intro r' hr'
    have hx : r' ∈ sortRowsByYear f.rows := hperm.mem_iff.mpr hr'
    have hle := pairwise_le_getLastD
      (R := fun a b : Row => (decide (a.year ≤ b.year) = true))
      (fun a => by simp) hpw r' hx r'
    rw [List.getLastD_eq_getLast?, hr] at hle
    simpa using hle
  · rw [comparison_last_value, hr]

/-- C9: for every comparison request (comparison flag set, at least two
resolved locations, not routed to an earlier strategy) whose two filtered
location frames are non-empty and contain the resolved value column: a
winner/loser context is emitted iff both locations' chronologically last
values in the filtered window exist and differ, the winner being the
location with the larger value and the difference the absolute gap; when
the two values are equal or one is missing the context stays empty and the
response summary is the neutral comparing sentence.  The distinct-year
hypotheses make "chronologically last" well defined (pandas sorts by year
with an unstable quicksort; on distinct years every comparison sort
agrees). -/
theorem c9_comparison_winner (df : Frame) (p : ParsedQuery)
    (hco : p.coordinate = false) (hnr : p.near = false) (hrk : p.ranking = false)
    (hcmp : p.comparison = true) (hlen : 2 ≤ p.locations.length)
    (h1 : (filter_dataset df (some (p.locations.getD 0 "")) p.year p.year_range
      p.last_n_years).rows ≠ [])
    (h2 : (filter_dataset df (some (p.locations.getD 1 "")) p.year p.year_range
      p.last_n_years).rows ≠ [])
    (hc1 : (filter_dataset df (some (p.locations.getD 0 "")) p.year p.year_range
      p.last_n_years).cols.contains (resolve_value_column p) = true)
    (hc2 : (filter_dataset df (some (p.locations.getD 1 "")) p.year p.year_range
      p.last_n_years).cols.contains (resolve_value_column p) = true)
    (_hy1 : (((filter_dataset df (some (p.locations.getD 0 "")) p.year p.year_range
      p.last_n_years).rows.map (·.year)).Nodup))
    (_hy2 : (((filter_dataset df (some (p.locations.getD 1 "")) p.year p.year_range
      p.last_n_years).rows.map (·.year)).Nodup)) :
    ((comparison_context
        (filter_dataset df (some (p.locations.getD 0 "")) p.year p.year_range p.last_n_years)
        (filter_dataset df (some (p.locations.getD 1 "")) p.year p.year_range p.last_n_years)
        (p.locations.getD 0 "") (p.locations.getD 1 "")
        (resolve_value_column p)).isSome = true
      ↔ ∃ va vb,
          comparison_last_value (filter_dataset df (some (p.locations.getD 0 "")) p.year
            p.year_range p.last_n_years) (resolve_value_column p) = some va
          ∧ comparison_last_value (filter_dataset df (some (p.locations.getD 1 "")) p.year
            p.year_range p.last_n_years) (resolve_value_column p) = some vb
          ∧ va ≠ vb)
    ∧ (∀ w l dq, comparison_context
        (filter_dataset df (some (p.locations.getD 0 "")) p.year p.year_range p.last_n_years)
        (filter_dataset df (some (p.locations.getD 1 "")) p.year p.year_range p.last_n_years)
        (p.locations.getD 0 "") (p.locations.getD 1 "")
        (resolve_value_column p) = some ⟨w, l, dq⟩ →
        ∃ va vb,
          comparison_last_value (filter_dataset df (some (p.locations.getD 0 "")) p.year
            p.year_range p.last_n_years) (resolve_value_column p) = some va
          ∧ comparison_last_value (filter_dataset df (some (p.locations.getD 1 "")) p.year
            p.year_range p.last_n_years) (resolve_value_column p) = some vb
          ∧ dq = |va - vb|
          ∧ ((vb < va ∧ w = p.locations.getD 0 "" ∧ l = p.locations.getD 1 "")
             ∨ (va < vb ∧ w = p.locations.getD 1 "" ∧ l = p.locations.getD 0 "")))
    ∧ (comparison_context
        (filter_dataset df (some (p.locations.getD 0 "")) p.year p.year_range p.last_n_years)
        (filter_dataset df (some (p.locations.getD 1 "")) p.year p.year_range p.last_n_years)
        (p.locations.getD 0 "") (p.locations.getD 1 "")
        (resolve_value_column p) = none →
        compSummary (handle_comparison df p)
          = some ("Comparing " ++ metric_phrase p ++ " between " ++ p.locations.getD 0 ""
              ++ " and " ++ p.locations.getD 1 "" ++ " " ++ time_phrase p ++ ".")) := by
  refine ⟨?_, ?_, ?_⟩
  · rcases hv1 : comparison_last_value (filter_dataset df (some (p.locations.getD 0 ""))
        p.year p.year_range p.last_n_years) (resolve_value_column p) with _ | va
    · rw [comp_ctx_none (Or.inl hv1)]
      simp [hv1]
    · rcases hv2 : comparison_last_value (filter_dataset df (some (p.locations.getD 1 ""))
          p.year p.year_range p.last_n_years) (resolve_value_column p) with _ | vb
      · rw [comp_ctx_none (Or.inr hv2)]
        simp [hv2]
      · rw [comp_ctx_some_some hv1 hv2]
        rcases lt_trichotomy va vb with hlt | heq | hlt
        · rw [if_neg (by exact not_lt_of_gt hlt), if_pos hlt]
          simp only [Option.isSome_some, true_iff]
          exact ⟨va, vb, rfl, rfl, ne_of_lt hlt⟩
        · rw [if_neg (by rw [heq]; exact lt_irrefl vb), if_neg (by rw [heq]; exact lt_irrefl vb)]
          simp only [Option.isSome_none, Bool.false_eq_true, false_iff]
          rintro ⟨x, y, hx, hy, hxy⟩
          injection hx with hx; injection hy with hy
          exact hxy (by rw [← hx, ← hy, heq])
        · rw [if_pos hlt]
          simp only [Option.isSome_some, true_iff]
          exact ⟨va, vb, rfl, rfl, ne_of_gt hlt⟩
  · intro w l dq hctx
    rcases hv1 : comparison_last_value (filter_dataset df (some (p.locations.getD 0 ""))
        p.year p.year_range p.last_n_years) (resolve_value_column p) with _ | va
    · rw [comp_ctx_none (Or.inl hv1)] at hctx; cases hctx
    · rcases hv2 : comparison_last_value (filter_dataset df (some (p.locations.getD 1 ""))
          p.year p.year_range p.last_n_years) (resolve_value_column p) with _ | vb
      · rw [comp_ctx_none (Or.inr hv2)] at hctx; cases hctx
      · rw [comp_ctx_some_some hv1 hv2] at hctx
        rcases lt_trichotomy va vb with hlt | heq | hlt
        · rw [if_neg (by exact not_lt_of_gt hlt), if_pos hlt] at hctx
          injection hctx with hctx
          cases hctx
          exact ⟨va, vb, rfl, rfl, (abs_sub_comm va vb ▸ (abs_of_pos (sub_pos.mpr hlt)).symm),
            Or.inr ⟨hlt, rfl, rfl⟩⟩
        · rw [if_neg (by rw [heq]; exact lt_irrefl vb),
            if_neg (by rw [heq]; exact lt_irrefl vb)] at hctx
          cases hctx
        · rw [if_pos hlt] at hctx
          injection hctx with hctx
          cases hctx
          exact ⟨va, vb, rfl, rfl, (abs_of_pos (sub_pos.mpr hlt)).symm,
            Or.inl ⟨hlt, rfl, rfl⟩⟩
  · intro hctx
    have hne1 : (filter_dataset df (some (p.locations.getD 0 "")) p.year p.year_range
        p.last_n_years).rows.isEmpty = false := List.isEmpty_eq_false.mpr h1
    have hne2 : (filter_dataset df (some (p.locations.getD 1 "")) p.year p.year_range
        p.last_n_years).rows.isEmpty = false := List.isEmpty_eq_false.mpr h2
    rw [handle_comparison, if_neg (by omega)]
    simp only [filter_two_locations, hne1, hne2, hc1, hc2, Bool.or_self, Bool.not_true,
      Bool.false_or, Bool.or_false, Bool.false_eq_true, if_false, hctx]
    rw [compSummary]
    simp only [generate_summary, hco, hnr, hrk, hcmp, Bool.false_eq_true, if_false,
      Bool.true_and, decide_eq_true_eq, if_pos hlen]

set_option maxRecDepth 400000 in
/-- C2 evidence (code_bug): `_handle_ranking` sorts with pandas' default
kind="quicksort" — numpy's introsort, which numpy documents as NOT stable.
On a 17-row ranking frame whose resolved value column is all ties, the
ascending ranking emits the rows in the order left by the quicksort
partition rather than the original order: rows with equal values do NOT
preserve their original relative order. -/
theorem c2_quicksort_ties_not_stable :
    (tieFrame17.rows.map (fun r => r.cell "flat - weighted average rate"))
        = List.replicate 17 (some 1)
    ∧ rankTableLocs (handle_ranking tieFrame17 tieRankQuery)
        = some ["L00", "L14", "L13", "L12", "L11", "L10", "L09", "L15", "L08", "L06",
            "L05", "L04", "L03", "L02", "L01", "L07", "L16"]
    ∧ rankTableLocs (handle_ranking tieFrame17 tieRankQuery)
        ≠ some (tieFrame17.rows.map (·.finalLocation)) :=
  ⟨of_decide_eq_true rfl, of_decide_eq_true rfl, of_decide_eq_true rfl⟩

set_option maxRecDepth 400000 in
/-- C3 evidence (code_bug): `_nearby_localities` sorts the rounded distance
column with the same unstable quicksort; with 18 other localities all at
identical coordinates — haversine distance exactly 0 from the base, modeled
by the constant-zero distance function — the emitted rows are not the first
three others in original order: equal distances do not preserve the
original relative order.  The row count is nevertheless capped at
NEARBY_LIMIT = 3. -/
theorem c3_nearby_ties_not_stable :
    (nearby_localities (fun _ _ => 0) nearFrame19 "Base").map (·.finalLocation)
        = ["N01", "N16", "N15"]
    ∧ ((nearby_localities (fun _ _ => 0) nearFrame19 "Base").map (·.finalLocation)
        ≠ ["N01", "N02", "N03"])
    ∧ (nearby_localities (fun _ _ => 0) nearFrame19 "Base").length ≤ NEARBY_LIMIT :=
  ⟨of_decide_eq_true rfl, of_decide_eq_true rfl, of_decide_eq_true rfl⟩

/-- C9 witness: both locations' chronologically last values are 120, so the
context stays empty and the response carries the neutral sentence. -/
theorem c9_comparison_winner_witness :
    comparison_context
        (filter_dataset c9Frame (some ((c9Query.locations.getD 0 ""))) c9Query.year
          c9Query.year_range c9Query.last_n_years)
        (filter_dataset c9Frame (some ((c9Query.locations.getD 1 ""))) c9Query.year
          c9Query.year_range c9Query.last_n_years)
        (c9Query.locations.getD 0 "") (c9Query.locations.getD 1 "")
        (resolve_value_column c9Query) = none
    ∧ compSummary (handle_comparison c9Frame c9Query)
        = some ("Comparing " ++ metric_phrase c9Query ++ " between "
            ++ c9Query.locations.getD 0 "" ++ " and " ++ c9Query.locations.getD 1 "" ++ " "
            ++ time_phrase c9Query ++ ".")
    ∧ compSummary (handle_comparison c9Frame c9Query)
        = some "Comparing pricing trends between Kharadi and Wakad across the available years." :=
  ⟨by decide,
   (c9_comparison_winner c9Frame c9Query rfl rfl rfl rfl (by decide) (by decide) (by decide)
     (by decide) (by decide) (by decide) (by decide)).2.2 (by decide),
   by decide⟩

/-- C10: for every frame and every ranking descriptor, the ranking handler's
response is unchanged under arbitrary modification of the descriptor's
year_range and last_n_years fields — a requested year range or last-N
window is silently ignored by the ranking strategy; only the single-year
field selects the ranking frame. -/
theorem c10_ranking_independent_of_window (df : Frame) (p : ParsedQuery)
    (yr : Option (Int × Int)) (ln : Option Nat) (h : p.ranking = true) :
    handle_ranking df { p with year_range := yr, last_n_years := ln }
      = handle_ranking df p := by
  simp only [handle_ranking, resolve_value_column, metric_column_for_property,
    resolve_ranking_limit, ranking_frame, generate_summary, metric_phrase, h, if_true,
    decide_True, Bool.true_and, Bool.and_true]

/-- C10 witness: a concrete ranking request gives the same response after a
year range and a last-N window are injected into the descriptor. -/
theorem c10_ranking_independent_witness :
    handle_ranking c10Frame
        { c10Query with year_range := some (2020, 2021), last_n_years := some 3 }
      = handle_ranking c10Frame c10Query :=
  c10_ranking_independent_of_window c10Frame c10Query (some (2020, 2021)) (some 3) rfl

/-- C6 counterexample: the ranking request "top 0 cost" carries the explicit
parsed limit 0, so the claim demands 0 emitted rows, but the handler emits
both candidate rows (truncating to the default 5) — Python's truthiness in
`_resolve_ranking_limit` treats an explicit limit of 0 as absent. -/
theorem c6_top0_counterexample :
    (parse_query "top 0 cost" []).ranking = true
    ∧ (parse_query "top 0 cost" []).ranking_limit = some 0
    ∧ rankingLimitClaim (parse_query "top 0 cost" []) = 0
    ∧ rankTableLen (handle_ranking c6Frame (parse_query "top 0 cost" [])) = some 2
    ∧ ¬(2 = min (rankingLimitClaim (parse_query "top 0 cost" [])) 2) :=
  ⟨by decide, by decide, by decide, by decide, by decide⟩

/-- C6 amended: for every ranking request with the resolved value column
present and at least one non-null candidate row, the number of emitted rows
is min(limit, candidates) where the limit is the explicit `top N` value when
present and positive (an explicit 0 is treated as absent); else 1 when the
raw query contains one of "which"/"highest"/"lowest"/"most"/"least"; else
5. -/
theorem c6_limit_amended (df : Frame) (p : ParsedQuery)
    (hcol : (ranking_frame df p.year).cols.contains (resolve_value_column p) = true)
    (hne : (ranking_frame df p.year).rows.filter
        (fun r => (r.cell (resolve_value_column p)).isSome) ≠ []) :
    rankTableLen (handle_ranking df p)
      = some (min (rankingLimitSpec p)
          (((ranking_frame df p.year).rows.filter
            (fun r => (r.cell (resolve_value_column p)).isSome)).length)) := by
  have hlim : resolve_ranking_limit p = rankingLimitSpec p := by
    rcases hl : p.ranking_limit with _ | n
    · simp [resolve_ranking_limit, rankingLimitSpec, hl]
    · rcases n with _ | m <;> simp [resolve_ranking_limit, rankingLimitSpec, hl]
  have hempty : ((ranking_frame df p.year).rows.filter
      (fun r => (r.cell (resolve_value_column p)).isSome)).isEmpty = false :=
    List.isEmpty_eq_false.mpr hne
  simp only [handle_ranking, hcol, Bool.not_true, Bool.false_eq_true, if_false, hempty,
    if_true, rankTableLen, hlim]
  simp [List.length_take, List.enum_length, nargsortNoNa_length]

/-- C6 amended witness: the "top 0 cost" request over the two-row frame
emits min(5, 2) = 2 ranked rows. -/
theorem c6_limit_amended_witness :
    rankTableLen (handle_ranking c6Frame (parse_query "top 0 cost" []))
      = some (min (rankingLimitSpec (parse_query "top 0 cost" []))
          (((ranking_frame c6Frame (parse_query "top 0 cost" []).year).rows.filter
            (fun r => (r.cell (resolve_value_column (parse_query "top 0 cost" []))).isSome)).length)) :=
  c6_limit_amended c6Frame (parse_query "top 0 cost" []) (by decide) (by decide)

end RealEstate
